import Mathlib

/-!
Shallow embedding of the DevTools debugger proxy
(`src/proxies/debugger/proxy.go`) and verification of its specification.

The proxy translates between the Chrome DevTools Debugger protocol and a
native debugger client.  External collaborators (the debugger client, the
Runtime collaborator) are modelled as oracles: records of the results their
calls return.  Handlers are pure functions from a client oracle, the proxy
state and a command to a trace of observable steps (client calls, responses,
emitted events, panics) together with the resulting proxy state (`none`
when the handler panicked).
-/

namespace DebuggerProxy

/-! ### 32-bit arithmetic and SHA-1 (`crypto/sha1` as used by the proxy) -/

def w32 (n : Nat) : Nat := n % 4294967296

def rotl (s n : Nat) : Nat := w32 ((n <<< s) ||| (n >>> (32 - s)))

def sha1f (t b c d : Nat) : Nat :=
  if t < 20 then (b &&& c) ||| ((b ^^^ 4294967295) &&& d)
  else if t < 40 then b ^^^ c ^^^ d
  else if t < 60 then (b &&& c) ||| (b &&& d) ||| (c &&& d)
  else b ^^^ c ^^^ d

def sha1k (t : Nat) : Nat :=
  if t < 20 then 0x5A827999
  else if t < 40 then 0x6ED9EBA1
  else if t < 60 then 0x8F1BBCDC
  else 0xCA62C1D6

/-- Big-endian 32-bit words from a list of bytes. -/
def bytesToWords : List Nat → List Nat
  | b0 :: b1 :: b2 :: b3 :: rest =>
      (b0 * 16777216 + b1 * 65536 + b2 * 256 + b3) :: bytesToWords rest
  | _ => []

/-- Extend the 16-word message schedule to 80 words (`fuel` pushes). -/
def sha1schedule (ws : Array Nat) : Nat → Array Nat
  | 0 => ws
  | Nat.succ k =>
      let i := ws.size
      sha1schedule
        (ws.push (rotl 1 (ws.getD (i - 3) 0 ^^^ ws.getD (i - 8) 0 ^^^
                          ws.getD (i - 14) 0 ^^^ ws.getD (i - 16) 0))) k

def sha1loop (ws : Array Nat) :
    Nat → Nat → Nat × Nat × Nat × Nat × Nat → Nat × Nat × Nat × Nat × Nat
  | _, 0, st => st
  | t, Nat.succ k, (a, b, c, d, e) =>
      let temp := w32 (rotl 5 a + sha1f t b c d + e + sha1k t + ws.getD t 0)
      sha1loop ws (t + 1) k (temp, a, rotl 30 b, c, d)

def sha1block (h : Nat × Nat × Nat × Nat × Nat) (block : List Nat) :
    Nat × Nat × Nat × Nat × Nat :=
  let ws := sha1schedule (List.toArray (bytesToWords block)) 64
  let (h0, h1, h2, h3, h4) := h
  let (a, b, c, d, e) := sha1loop ws 0 80 (h0, h1, h2, h3, h4)
  (w32 (h0 + a), w32 (h1 + b), w32 (h2 + c), w32 (h3 + d), w32 (h4 + e))

def sha1padding (len : Nat) : List Nat :=
  let zeros := (119 - len % 64) % 64
  let bitlen := len * 8
  128 :: List.replicate zeros 0 ++
    [(bitlen >>> 56) % 256, (bitlen >>> 48) % 256, (bitlen >>> 40) % 256,
     (bitlen >>> 32) % 256, (bitlen >>> 24) % 256, (bitlen >>> 16) % 256,
     (bitlen >>> 8) % 256, bitlen % 256]

def chunks64 : List Nat → List (List Nat)
  | [] => []
  | a :: rest => (a :: rest.take 63) :: chunks64 (rest.drop 63)
termination_by l => l.length
decreasing_by
  simp only [List.length_drop, List.length_cons]
  omega

def wordBytes (w : Nat) : List Nat :=
  [(w >>> 24) % 256, (w >>> 16) % 256, (w >>> 8) % 256, w % 256]

/-- SHA-1 digest (20 bytes) of a byte sequence. -/
def sha1 (ms : List Nat) : List Nat :=
  let padded := ms ++ sha1padding ms.length
  let (h0, h1, h2, h3, h4) :=
    (chunks64 padded).foldl sha1block
      (0x67452301, 0xEFCDAB89, 0x98BADCFE, 0x10325476, 0xC3D2E1F0)
  wordBytes h0 ++ wordBytes h1 ++ wordBytes h2 ++ wordBytes h3 ++ wordBytes h4

/-! ### Hex encoding (`fmt.Sprintf "%x"` on a byte array) -/

def hexDigits : List Char := "0123456789abcdef".data

def hexChar (n : Nat) : Char := hexDigits.getD n '0'

def hexEncodeBytes (bs : List Nat) : String :=
  String.mk ((bs.map (fun b => [hexChar (b / 16), hexChar (b % 16)])).flatten)

/-! ### UTF-8 bytes of a string (Go's `[]byte(s)`) -/

def utf8Bytes (c : Char) : List Nat :=
  let n := c.toNat
  if n < 128 then [n]
  else if n < 2048 then [192 + n / 64, 128 + n % 64]
  else if n < 65536 then [224 + n / 4096, 128 + (n / 64) % 64, 128 + n % 64]
  else [240 + n / 262144, 128 + (n / 4096) % 64, 128 + (n / 64) % 64, 128 + n % 64]

def strBytes (s : String) : List Nat := s.data.flatMap utf8Bytes

/-! ### Breakpoint fingerprint
`fmt.Sprintf("a%x", sha1.Sum([]byte(fmt.Sprintf("%s:%d", url, lineNumber))))` -/

def breakpointKey (url : String) (lineNumber : Int) : String :=
  "a" ++ hexEncodeBytes (sha1 (strBytes (url ++ ":" ++ toString lineNumber)))

/-! ### Debugger-client data model (`dbgClient`) -/

structure FunctionInfo where
  name : String
deriving DecidableEq, Repr

structure SourceLocation where
  file : String
  line : Int
  function : Option FunctionInfo
deriving DecidableEq, Repr

structure Goroutine where
  id : Int
  userCurrentLoc : SourceLocation
deriving DecidableEq, Repr

structure Stackframe where
  location : SourceLocation
deriving DecidableEq, Repr

structure DebuggerState where
  selectedGoroutine : Option Goroutine
deriving DecidableEq, Repr

structure Variable where
  name : String
  value : String
deriving DecidableEq, Repr

/-! ### DevTools protocol data model (`protocol/debugger`, `runtime`, `target`) -/

structure RemoteObject where
  type : String
  objectId : Option String := none
deriving DecidableEq, Repr

structure Scope where
  type : String
  object : RemoteObject
deriving DecidableEq, Repr

structure Location where
  scriptId : String
  lineNumber : Int
deriving DecidableEq, Repr

structure CallFrame where
  callFrameId : String
  functionName : String
  location : Location
  scopeChain : List Scope
  thisObj : RemoteObject
  returnValue : Option RemoteObject := none
deriving DecidableEq, Repr

structure PausedEvent where
  reason : String
  callFrames : List CallFrame
deriving DecidableEq, Repr

structure ScriptParsedEvent where
  scriptId : String
  url : String
  executionContextId : Int
deriving DecidableEq, Repr

structure TargetInfo where
  targetId : String
  type : String
  title : String
  url : String
deriving DecidableEq, Repr

structure AttachedToTargetEvent where
  targetInfo : TargetInfo
  waitingForDebugger : Bool
deriving DecidableEq, Repr

structure SetBreakpointByUrlReturn where
  breakpointId : String
  locations : List Location
deriving DecidableEq, Repr

structure ExceptionDetails where
  exceptionId : Int
  text : String
  lineNumber : Int
  columnNumber : Int
deriving DecidableEq, Repr

structure EvaluateOnCallFrameReturn where
  result : Option RemoteObject := none
  exceptionDetails : Option ExceptionDetails := none
deriving DecidableEq, Repr

inductive ErrorCode where
  | methodNotFound
  | invalidParams
  | internalError
deriving DecidableEq, Repr

inductive Response where
  | ok
  | okSetBreakpoint (ret : SetBreakpointByUrlReturn)
  | okEvaluate (ret : EvaluateOnCallFrameReturn)
  | okGetScriptSource (src : String)
  | err (code : ErrorCode) (msg : String)
deriving DecidableEq, Repr

inductive Event where
  | attachedToTarget (e : AttachedToTargetEvent)
  | detachedFromTarget (targetId : String)
  | scriptParsedOnTarget (targetId : String) (e : ScriptParsedEvent)
  | scriptParsed (e : ScriptParsedEvent)
  | resumedOnTarget (targetId : String)
  | resumed
  | pausedOnTarget (targetId : String) (e : PausedEvent)
  | paused (e : PausedEvent)
deriving DecidableEq, Repr

/-- One observable action of a handler: a response on the command, an event
emission, a debugger-client call, or a panic (which ends the trace). -/
inductive Step where
  | respond (r : Response)
  | emit (e : Event)
  | clientGetState
  | clientListGoroutines
  | clientStacktrace (routineId : Int)
  | clientSwitchGoroutine (routineId : Int)
  | clientNext
  | clientStep
  | clientStepOut
  | clientContinue
  | clientCreateBreakpoint (file : String) (line : Int) (name : String)
  | clientClearBreakpoint (name : String)
  | clientEvalVariable (routineId : Int) (frame : Int) (expr : String)
  | panicked (msg : String)
deriving DecidableEq, Repr

/-- The mutable fields of the `proxy` struct that the handlers touch. -/
structure ProxyState where
  activeTargets : List Int
  fileList : List String
  activeGoroutineID : Int
  breakpoints : List String
deriving DecidableEq, Repr

/-- Oracle for the debugger client: the result each call would return. -/
structure Client where
  getState : Except String (Option DebuggerState)
  listGoroutines : Except String (List Goroutine)
  stacktrace : Int → Except String (List Stackframe)
  switchGoroutine : Int → Except String Unit
  next : Except String Unit
  step : Except String Unit
  stepOut : Except String Unit
  continueResult : Option (Option DebuggerState)
  createBreakpointAtLine : String → Int → String → Except String Unit
  clearBreakpointByName : String → Except String Unit
  evalVariable : Int → Int → String → Except String Variable

/-! ### Commands -/

structure SetBreakpointByUrlCommand where
  lineNumber : Int
  url : Option String := none
  urlRegex : Option String := none
  columnNumber : Option Int := none
  condition : Option String := none
deriving DecidableEq, Repr

structure RemoveBreakpointCommand where
  breakpointId : String
deriving DecidableEq, Repr

structure StepOverCommand where
  destinationTargetID : String := ""
deriving DecidableEq, Repr

structure StepIntoCommand where
  destinationTargetID : String := ""
deriving DecidableEq, Repr

structure StepOutCommand where
  destinationTargetID : String := ""
deriving DecidableEq, Repr

structure ResumeCommand where
  destinationTargetID : String := ""
deriving DecidableEq, Repr

structure EvaluateOnCallFrameCommand where
  callFrameId : String
  expression : String
  destinationTargetID : String := ""
deriving DecidableEq, Repr

/-! ### `strconv.Atoi` -/

def digitVal (c : Char) : Nat := c.toNat - 48

def parseDigitsList (cs : List Char) : Option Nat :=
  if cs = [] then none
  else if cs.all (fun c => c.isDigit) then
    some (cs.foldl (fun acc c => acc * 10 + digitVal c) 0)
  else none

def atoi (s : String) : Option Int :=
  match s.data with
  | '-' :: rest => (parseDigitsList rest).map (fun n => -(n : Int))
  | '+' :: rest => (parseDigitsList rest).map (fun n => (n : Int))
  | cs => (parseDigitsList cs).map (fun n => (n : Int))

/-! ### Target (`Target.Attach`, `Destroy`, `FireResumed`, `FirePaused`) -/

/-- Go's `strings.Split` with a one-character separator. -/
def splitOnChar (sep : Char) : List Char → List (List Char)
  | [] => [[]]
  | c :: rest =>
    let r := splitOnChar sep rest
    if c = sep then [] :: r
    else
      match r with
      | [] => [[c]]
      | g :: gs => (c :: g) :: gs

def lastD : List (List Char) → List Char → List Char
  | [], d => d
  | [x], _ => x
  | _ :: y :: rest, d => lastD (y :: rest) d

def shortFnName (routine : Goroutine) : String :=
  match routine.userCurrentLoc.function with
  | none => ""
  | some f => " " ++ String.mk (lastD (splitOnChar '.' f.name.data) [])

def attachTargetInfo (routine : Goroutine) : TargetInfo :=
  { targetId := toString routine.id
    type := "node"
    title := "tt"
    url := toString routine.id ++ ":" ++ shortFnName routine }

def attachEvents (fileList : List String) (routine : Goroutine) : List Event :=
  .attachedToTarget { targetInfo := attachTargetInfo routine, waitingForDebugger := false } ::
    fileList.map (fun file => .scriptParsedOnTarget (toString routine.id)
      { scriptId := file, url := file, executionContextId := 1 })

def buildScopeChain (frameId : Nat) : List Scope :=
  [{ type := "local"
     object := { type := "object", objectId := some ("local:" ++ toString frameId) } }]

def buildCallFrame (index : Nat) (frame : Stackframe) : CallFrame :=
  { callFrameId := toString index
    functionName := match frame.location.function with
      | none => "<Unknown>"
      | some f => f.name
    location := { scriptId := frame.location.file, lineNumber := frame.location.line - 1 }
    scopeChain := buildScopeChain index
    thisObj := { type := "undefined" }
    returnValue := none }

def buildPausedEvent (frames : List Stackframe) : PausedEvent :=
  { reason := "other", callFrames := frames.enum.map (fun p => buildCallFrame p.1 p.2) }

/-! ### Routine sync (`syncGoroutines`) -/

def attachLoop (fileList : List String) :
    List Goroutine → List Int → List Step × List Int
  | [], targets => ([], targets)
  | r :: rest, targets =>
    if r.id ∈ targets then attachLoop fileList rest targets
    else
      let res := attachLoop fileList rest (targets ++ [r.id])
      ((attachEvents fileList r).map .emit ++ res.1, res.2)

def destroyLoop (found : List Int) : List Int → List Step × List Int
  | [] => ([], [])
  | id :: rest =>
    if id ∈ found then
      let res := destroyLoop found rest
      (res.1, id :: res.2)
    else
      let res := destroyLoop found rest
      (.emit (.detachedFromTarget (toString id)) :: res.1, res.2)

/-- The recovery at the end of `syncGoroutines`: keep the active routine if
still present, otherwise grab the first enumerated entry (or keep the old
value when the map is empty). -/
def pickActiveGoroutine (current : Int) (targets : List Int) : Int :=
  if current ∈ targets then current
  else
    match targets with
    | [] => current
    | t :: _ => t

def syncGoroutines (c : Client) (st : ProxyState) : List Step × Option ProxyState :=
  match c.listGoroutines with
  | .error e => ([.clientListGoroutines, .panicked e], none)
  | .ok routines =>
    let found := routines.map (fun r => r.id)
    let att := attachLoop st.fileList routines st.activeTargets
    let des := destroyLoop found att.2
    (.clientListGoroutines :: att.1 ++ des.1,
     some { st with activeTargets := des.2,
                    activeGoroutineID := pickActiveGoroutine st.activeGoroutineID des.2 })

/-! ### Resume fan-out (`sendResumeState`) -/

def sendResumeState (st : ProxyState) : List Step :=
  st.activeTargets.map (fun id => .emit (.resumedOnTarget (toString id))) ++ [.emit .resumed]

/-! ### Pause snapshot (`sendPauseState`) -/

def collectStacks (c : Client) (active : Int) :
    List Int → Option (List Stackframe) → List (Int × List Stackframe) →
    List Step × Option (Option (List Stackframe) × List (Int × List Stackframe))
  | [], act, ts => ([], some (act, ts))
  | id :: rest, act, ts =>
    match c.stacktrace id with
    | .error e => ([.clientStacktrace id, .panicked e], none)
    | .ok stks =>
      if id = active then
        let res := collectStacks c active rest (some stks) ts
        (.clientStacktrace id :: res.1, res.2)
      else
        let res := collectStacks c active rest act (ts ++ [(id, stks)])
        (.clientStacktrace id :: res.1, res.2)

/-- The default-agent Paused emission of the snapshot (present iff an
active stack was found). -/
def defaultPausedSteps (act : Option (List Stackframe)) : List Step :=
  match act with
  | none => []
  | some stks => [.emit (.paused (buildPausedEvent stks))]

/-- The per-target `FirePaused` emissions of the snapshot. -/
def targetPausedSteps (ts : List (Int × List Stackframe)) : List Step :=
  ts.map (fun p => Step.emit (.pausedOnTarget (toString p.1) (buildPausedEvent p.2)))

def sendPauseState (c : Client) (st : ProxyState) : List Step × Option ProxyState :=
  match c.getState with
  | .error e => ([.clientGetState, .panicked e], none)
  | .ok state =>
    let sync := syncGoroutines c st
    match sync.2 with
    | none => (.clientGetState :: sync.1, none)
    | some st1 =>
      match state with
      | none =>
        (.clientGetState :: sync.1 ++ [.panicked "Called sendPauseState() but not paused."], none)
      | some _ =>
        let col := collectStacks c st1.activeGoroutineID st1.activeTargets none []
        match col.2 with
        | none => (.clientGetState :: sync.1 ++ col.1, none)
        | some (activeStack, targetsStacks) =>
          (.clientGetState :: sync.1 ++ col.1 ++
            defaultPausedSteps activeStack ++ targetPausedSteps targetsStacks, some st1)

/-! ### Breakpoint handlers -/

def buildLocation (file : String) (line : Int) : Location :=
  { scriptId := file, lineNumber := line }

def sendBreakpointSet (cmd : SetBreakpointByUrlCommand) (url : String) (key : String) : Step :=
  .respond (.okSetBreakpoint
    { breakpointId := key, locations := [buildLocation url cmd.lineNumber] })

def setBreakpointAndRespond (c : Client) (st : ProxyState)
    (cmd : SetBreakpointByUrlCommand) : List Step × Option ProxyState :=
  if cmd.urlRegex ≠ none then
    ([.respond (.err .invalidParams "urlRegex not available")], some st)
  else if cmd.columnNumber.getD 0 ≠ 0 then
    ([.respond (.err .invalidParams "columnNumber not available")], some st)
  else if cmd.condition.getD "" ≠ "" then
    ([.respond (.err .invalidParams "condition not available")], some st)
  else
    match cmd.url with
    | none => ([.respond (.err .invalidParams "url must be set")], some st)
    | some url =>
      let key := breakpointKey url cmd.lineNumber
      if key ∈ st.breakpoints then
        ([sendBreakpointSet cmd url key], some st)
      else
        match c.createBreakpointAtLine url (cmd.lineNumber + 1) key with
        | .error e =>
          ([.clientCreateBreakpoint url (cmd.lineNumber + 1) key,
            .respond (.err .internalError e)],
           some { st with breakpoints := st.breakpoints.erase key })
        | .ok _ =>
          ([.clientCreateBreakpoint url (cmd.lineNumber + 1) key,
            sendBreakpointSet cmd url key],
           some { st with breakpoints := st.breakpoints ++ [key] })

def removeBreakpointAndRespond (c : Client) (st : ProxyState)
    (cmd : RemoveBreakpointCommand) : List Step × Option ProxyState :=
  let st1 := { st with breakpoints := st.breakpoints.erase cmd.breakpointId }
  match c.clearBreakpointByName cmd.breakpointId with
  | .error e =>
    ([.clientClearBreakpoint cmd.breakpointId, .respond (.err .internalError e)], some st1)
  | .ok _ => ([.clientClearBreakpoint cmd.breakpointId, .respond .ok], some st1)

/-! ### Step / resume / evaluate handlers -/

def parseDestination (dest : String) (current : Int) : Option Int :=
  if dest = "" then some current else atoi dest

def stepOverAndRespond (c : Client) (st : ProxyState) (cmd : StepOverCommand) :
    List Step × Option ProxyState :=
  match parseDestination cmd.destinationTargetID st.activeGoroutineID with
  | none =>
    ([.respond (.err .internalError "Could not convert targetID to int"),
      .panicked "strconv.Atoi error"], none)
  | some gid =>
    let st1 := { st with activeGoroutineID := gid }
    match c.switchGoroutine gid with
    | .error e =>
      ([.clientSwitchGoroutine gid, .respond (.err .internalError e), .panicked e], none)
    | .ok _ =>
      let resumeSteps := sendResumeState st1
      match c.next with
      | .error e =>
        (.clientSwitchGoroutine gid :: resumeSteps ++
           [.clientNext, .respond (.err .internalError e), .panicked e], none)
      | .ok _ =>
        let pause := sendPauseState c st1
        (.clientSwitchGoroutine gid :: resumeSteps ++
           [.clientNext, .respond .ok] ++ pause.1, pause.2)

def stepIntoAndRespond (c : Client) (st : ProxyState) (cmd : StepIntoCommand) :
    List Step × Option ProxyState :=
  match parseDestination cmd.destinationTargetID st.activeGoroutineID with
  | none =>
    ([.respond (.err .internalError "Could not convert targetID to int"),
      .panicked "strconv.Atoi error"], none)
  | some gid =>
    let st1 := { st with activeGoroutineID := gid }
    match c.switchGoroutine gid with
    | .error e =>
      ([.clientSwitchGoroutine gid, .respond (.err .internalError e), .panicked e], none)
    | .ok _ =>
      let resumeSteps := sendResumeState st1
      match c.step with
      | .error e =>
        (.clientSwitchGoroutine gid :: resumeSteps ++
           [.clientStep, .respond (.err .internalError e), .panicked e], none)
      | .ok _ =>
        let pause := sendPauseState c st1
        (.clientSwitchGoroutine gid :: resumeSteps ++
           [.clientStep, .respond .ok] ++ pause.1, pause.2)

def stepOutAndRespond (c : Client) (st : ProxyState) (cmd : StepOutCommand) :
    List Step × Option ProxyState :=
  match parseDestination cmd.destinationTargetID st.activeGoroutineID with
  | none =>
    ([.respond (.err .internalError "Could not convert targetID to int"),
      .panicked "strconv.Atoi error"], none)
  | some gid =>
    let st1 := { st with activeGoroutineID := gid }
    match c.switchGoroutine gid with
    | .error e =>
      ([.clientSwitchGoroutine gid, .respond (.err .internalError e), .panicked e], none)
    | .ok _ =>
      let resumeSteps := sendResumeState st1
      match c.stepOut with
      | .error e =>
        (.clientSwitchGoroutine gid :: resumeSteps ++
           [.clientStepOut, .respond (.err .internalError e), .panicked e], none)
      | .ok _ =>
        let pause := sendPauseState c st1
        (.clientSwitchGoroutine gid :: resumeSteps ++
           [.clientStepOut, .respond .ok] ++ pause.1, pause.2)

def continueAndRespond (c : Client) (st : ProxyState) (cmd : ResumeCommand) :
    List Step × Option ProxyState :=
  match parseDestination cmd.destinationTargetID st.activeGoroutineID with
  | none =>
    ([.respond (.err .internalError "Could not convert targetID to int"),
      .panicked "strconv.Atoi error"], none)
  | some gid =>
    let st1 := { st with activeGoroutineID := gid }
    match c.switchGoroutine gid with
    | .error e =>
      ([.clientSwitchGoroutine gid, .respond (.err .internalError e), .panicked e], none)
    | .ok _ =>
      let resumeSteps := sendResumeState st1
      match c.continueResult with
      | none =>
        (.clientSwitchGoroutine gid :: .respond .ok :: resumeSteps ++
           [.clientContinue, .panicked "It appears program has exited"], none)
      | some state =>
        let st2 :=
          match state with
          | some s =>
            match s.selectedGoroutine with
            | some g => { st1 with activeGoroutineID := g.id }
            | none => st1
          | none => st1
        let pause := sendPauseState c st2
        (.clientSwitchGoroutine gid :: .respond .ok :: resumeSteps ++
           [.clientContinue] ++ pause.1, pause.2)

def evaluateOnGoroutineAndRespond (c : Client) (mk : Variable → RemoteObject)
    (st : ProxyState) (cmd : EvaluateOnCallFrameCommand) : List Step × Option ProxyState :=
  match parseDestination cmd.destinationTargetID st.activeGoroutineID with
  | none =>
    ([.respond (.err .internalError "Could not convert targetID to int"),
      .panicked "strconv.Atoi error"], none)
  | some gid =>
    match atoi cmd.callFrameId with
    | none => ([.panicked "strconv.Atoi error"], none)
    | some frameId =>
      match c.evalVariable gid frameId cmd.expression with
      | .error e =>
        ([.clientEvalVariable gid frameId cmd.expression,
          .respond (.okEvaluate
            (EvaluateOnCallFrameReturn.mk none (some (ExceptionDetails.mk 1 e (-1) (-1)))))],
         some st)
      | .ok v =>
        ([.clientEvalVariable gid frameId cmd.expression,
          .respond (.okEvaluate { result := some (mk v) })], some st)

/-! ## Helper lemmas -/

theorem wordBytes_lt (w : Nat) : ∀ b ∈ wordBytes w, b < 256 := by
  simp only [wordBytes, List.mem_cons, List.not_mem_nil, or_false]
  rintro b (rfl | rfl | rfl | rfl) <;> omega

theorem sha1_length (ms : List Nat) : (sha1 ms).length = 20 := by
  show (wordBytes _ ++ wordBytes _ ++ wordBytes _ ++ wordBytes _ ++ wordBytes _).length = 20
  simp [wordBytes]

theorem sha1_exists_words (ms : List Nat) :
    ∃ h0 h1 h2 h3 h4, sha1 ms =
      wordBytes h0 ++ wordBytes h1 ++ wordBytes h2 ++ wordBytes h3 ++ wordBytes h4 :=
  ⟨_, _, _, _, _, rfl⟩

theorem hexChar_mem (n : Nat) : hexChar n ∈ hexDigits := by
  rcases Nat.lt_or_ge n 16 with h | h
  · interval_cases n <;> decide
  · have h16 : hexDigits.length = 16 := by decide
    have hlen : hexDigits.length ≤ n := by omega
    simp only [hexChar, List.getD_eq_default _ _ hlen]
    decide

theorem hexEncodeBytes_length (bs : List Nat) : (hexEncodeBytes bs).length = 2 * bs.length := by
  induction bs with
  | nil => rfl
  | cons b rest ih =>
    simp only [hexEncodeBytes, String.length, String.mk] at ih ⊢
    simp only [List.map_cons, List.flatten_cons, List.length_append, List.length_cons,
      List.length_nil] at ih ⊢
    omega

theorem hexEncodeBytes_chars (bs : List Nat) :
    ∀ ch ∈ (hexEncodeBytes bs).data, ch ∈ hexDigits := by
  intro ch hch
  simp only [hexEncodeBytes, String.mk, List.mem_flatten, List.mem_map] at hch
  obtain ⟨l, ⟨b, _, rfl⟩, hl⟩ := hch
  simp only [List.mem_cons, List.not_mem_nil, or_false] at hl
  rcases hl with rfl | rfl
  · exact hexChar_mem _
  · exact hexChar_mem _

/-- The shape required by the regular expression `^a[0-9a-f]\x7b40\x7d$`. -/
def isBpIdForm (s : String) : Prop :=
  s.length = 41 ∧ s.data.head? = some 'a' ∧ ∀ ch ∈ s.data.tail, ch ∈ hexDigits

theorem breakpointKey_form (url : String) (line : Int) : isBpIdForm (breakpointKey url line) := by
  have hdata : (breakpointKey url line).data =
      'a' :: (hexEncodeBytes (sha1 (strBytes (url ++ ":" ++ toString line)))).data := by
    simp [breakpointKey, String.data_append]
  refine ⟨?_, ?_, ?_⟩
  · show (breakpointKey url line).data.length = 41
    rw [hdata]
    have := hexEncodeBytes_length (sha1 (strBytes (url ++ ":" ++ toString line)))
    have hlen := sha1_length (strBytes (url ++ ":" ++ toString line))
    simp only [String.length] at this
    simp only [List.length_cons, this, hlen]
  · rw [hdata]; rfl
  · rw [hdata]
    exact hexEncodeBytes_chars _

/-- A command carrying only a url and a line, as in the claims. -/
def mkSetBpCmd (url : String) (line : Int) : SetBreakpointByUrlCommand :=
  { lineNumber := line, url := some url }

theorem setBreakpoint_valid_unfold (c : Client) (st : ProxyState) (url : String) (line : Int) :
    setBreakpointAndRespond c st (mkSetBpCmd url line) =
      (if breakpointKey url line ∈ st.breakpoints then
        ([sendBreakpointSet (mkSetBpCmd url line) url (breakpointKey url line)], some st)
      else
        match c.createBreakpointAtLine url (line + 1) (breakpointKey url line) with
        | .error e =>
          ([.clientCreateBreakpoint url (line + 1) (breakpointKey url line),
            .respond (.err .internalError e)],
           some { st with breakpoints := st.breakpoints.erase (breakpointKey url line) })
        | .ok _ =>
          ([.clientCreateBreakpoint url (line + 1) (breakpointKey url line),
            sendBreakpointSet (mkSetBpCmd url line) url (breakpointKey url line)],
           some { st with breakpoints := st.breakpoints ++ [breakpointKey url line] })) := by
  rfl

/-- A step that calls the debugger client's `CreateBreakpointAtLine`. -/
def isCreateCall : Step → Bool
  | .clientCreateBreakpoint _ _ _ => true
  | _ => false

/-- C3: the BreakpointId carried by any success response of SetBreakpointByUrl
is the character `a` followed by the lowercase hex SHA-1 of
`url ++ ":" ++ decimal line`, and it matches `^a[0-9a-f]\x7b40\x7d$`. -/
theorem setBreakpointByUrl_fingerprint (c : Client) (st : ProxyState)
    (url : String) (line : Int) (ret : SetBreakpointByUrlReturn)
    (h : Step.respond (.okSetBreakpoint ret) ∈
      (setBreakpointAndRespond c st (mkSetBpCmd url line)).1) :
    ret.breakpointId =
      "a" ++ hexEncodeBytes (sha1 (strBytes (url ++ ":" ++ toString line))) ∧
    isBpIdForm ret.breakpointId := by
  have hkey : ret.breakpointId = breakpointKey url line := by
    rw [setBreakpoint_valid_unfold] at h
    by_cases hmem : breakpointKey url line ∈ st.breakpoints
    · simp only [if_pos hmem, sendBreakpointSet, List.mem_cons, List.not_mem_nil, or_false] at h
      cases h
      rfl
    · rw [if_neg hmem] at h
      cases hc : c.createBreakpointAtLine url (line + 1) (breakpointKey url line) with
      | error e =>
        rw [hc] at h
        simp only [List.mem_cons, List.not_mem_nil, or_false] at h
        rcases h with h | h <;> cases h
      | ok u =>
        rw [hc] at h
        simp only [sendBreakpointSet, List.mem_cons, List.not_mem_nil, or_false] at h
        rcases h with h | h
        · cases h
        · cases h
          rfl
  exact ⟨hkey, hkey ▸ breakpointKey_form url line⟩

/-- C2: setting the same (url, line) twice from a state in which the
fingerprint is not yet present, with a succeeding backend call, yields two
success responses with the identical BreakpointId and the same single
location, while CreateBreakpointAtLine is called exactly once across the
two invocations. -/
theorem setBreakpointByUrl_idempotent (c : Client) (st : ProxyState)
    (url : String) (line : Int)
    (hnew : breakpointKey url line ∉ st.breakpoints)
    (hok : c.createBreakpointAtLine url (line + 1) (breakpointKey url line) = .ok ()) :
    (setBreakpointAndRespond c st (mkSetBpCmd url line)).1 =
      [.clientCreateBreakpoint url (line + 1) (breakpointKey url line),
       .respond (.okSetBreakpoint
         { breakpointId := breakpointKey url line
           locations := [buildLocation url line] })] ∧
    (setBreakpointAndRespond c st (mkSetBpCmd url line)).2 =
      some { st with breakpoints := st.breakpoints ++ [breakpointKey url line] } ∧
    (setBreakpointAndRespond c
        { st with breakpoints := st.breakpoints ++ [breakpointKey url line] }
        (mkSetBpCmd url line)).1 =
      [.respond (.okSetBreakpoint
         { breakpointId := breakpointKey url line
           locations := [buildLocation url line] })] ∧
    ((setBreakpointAndRespond c st (mkSetBpCmd url line)).1 ++
      (setBreakpointAndRespond c
        { st with breakpoints := st.breakpoints ++ [breakpointKey url line] }
        (mkSetBpCmd url line)).1).countP isCreateCall = 1 := by
  have h1 := setBreakpoint_valid_unfold c st url line
  rw [if_neg hnew, hok] at h1
  have hmem2 : breakpointKey url line ∈ st.breakpoints ++ [breakpointKey url line] := by
    simp
  have h2 := setBreakpoint_valid_unfold c
    { st with breakpoints := st.breakpoints ++ [breakpointKey url line] } url line
  rw [if_pos hmem2] at h2
  refine ⟨?_, ?_, ?_, ?_⟩
  · rw [h1]; rfl
  · rw [h1]
  · rw [h2]; rfl
  · rw [h1, h2]
    simp [sendBreakpointSet, isCreateCall, List.countP_cons, List.countP_nil]

/-- C6: if the backend CreateBreakpointAtLine call fails, the handler answers
InternalError and the breakpoint set is exactly what it was before (the
fingerprint is not a member afterwards); on success the fingerprint is
recorded and the response carries it with `buildLocation url line`. -/
theorem setBreakpointByUrl_atomic (c : Client) (st : ProxyState)
    (url : String) (line : Int)
    (hnew : breakpointKey url line ∉ st.breakpoints) :
    (∀ e, c.createBreakpointAtLine url (line + 1) (breakpointKey url line) = .error e →
      setBreakpointAndRespond c st (mkSetBpCmd url line) =
        ([.clientCreateBreakpoint url (line + 1) (breakpointKey url line),
          .respond (.err .internalError e)], some st) ∧
      breakpointKey url line ∉ st.breakpoints) ∧
    (∀ u : Unit,
      c.createBreakpointAtLine url (line + 1) (breakpointKey url line) = .ok u →
      setBreakpointAndRespond c st (mkSetBpCmd url line) =
        ([.clientCreateBreakpoint url (line + 1) (breakpointKey url line),
          .respond (.okSetBreakpoint
            { breakpointId := breakpointKey url line
              locations := [buildLocation url line] })],
         some { st with breakpoints := st.breakpoints ++ [breakpointKey url line] }) ∧
      breakpointKey url line ∈ st.breakpoints ++ [breakpointKey url line]) := by
  constructor
  · intro e he
    have h1 := setBreakpoint_valid_unfold c st url line
    rw [if_neg hnew, he] at h1
    rw [List.erase_of_not_mem hnew] at h1
    exact ⟨h1, hnew⟩
  · intro u hu
    have h1 := setBreakpoint_valid_unfold c st url line
    rw [if_neg hnew, hu] at h1
    exact ⟨h1, by simp⟩

/-- C1 (breakpoint direction): every CreateBreakpointAtLine call a
SetBreakpointByUrl handler makes targets the command's url at
`lineNumber + 1`, under the fingerprint name. -/
theorem setBreakpointByUrl_line_plus_one (c : Client) (st : ProxyState)
    (cmd : SetBreakpointByUrlCommand) (f : String) (l : Int) (n : String)
    (h : Step.clientCreateBreakpoint f l n ∈ (setBreakpointAndRespond c st cmd).1) :
    cmd.url = some f ∧ l = cmd.lineNumber + 1 ∧ n = breakpointKey f cmd.lineNumber := by
  simp only [setBreakpointAndRespond] at h
  split at h
  · simp at h
  · split at h
    · simp at h
    · split at h
      · simp at h
      · split at h
        · simp at h
        · rename_i url heq
          split at h
          · simp [sendBreakpointSet] at h
          · split at h
            · simp only [List.mem_cons, List.not_mem_nil, or_false] at h
              rcases h with h | h
              · cases h; exact ⟨heq ▸ rfl, rfl, rfl⟩
              · cases h
            · simp only [sendBreakpointSet, List.mem_cons, List.not_mem_nil, or_false] at h
              rcases h with h | h
              · cases h; exact ⟨heq ▸ rfl, rfl, rfl⟩
              · cases h

/-! ## Error-handling claims -/

/-- Concrete inputs used by counterexamples and witnesses. -/
def st0 : ProxyState := { activeTargets := [], fileList := [], activeGoroutineID := 1, breakpoints := [] }

def cSwitchFail : Client :=
  { getState := .ok (some { selectedGoroutine := none })
    listGoroutines := .ok []
    stacktrace := fun _ => .ok []
    switchGoroutine := fun _ => .error "switch failed"
    next := .ok ()
    step := .ok ()
    stepOut := .ok ()
    continueResult := some none
    createBreakpointAtLine := fun _ _ _ => .ok ()
    clearBreakpointByName := fun _ => .ok ()
    evalVariable := fun _ _ _ => .error "undefined symbol" }

/-- C4 counterexample: a SwitchGoroutine failure inside the StepOver handler
does respond with an internal error carrying the cause text, but the handler
then panics — the failure is fatal to the proxy, not recoverable. -/
theorem stepOver_switch_failure_fatal :
    (stepOverAndRespond cSwitchFail st0 { destinationTargetID := "" }).2 = none ∧
    Step.respond (.err .internalError "switch failed") ∈
      (stepOverAndRespond cSwitchFail st0 { destinationTargetID := "" }).1 ∧
    Step.panicked "switch failed" ∈
      (stepOverAndRespond cSwitchFail st0 { destinationTargetID := "" }).1 := by
  decide

/-- C4 amended: when a debugger-client call fails inside a handler, the
handler responds to the command with an internal error carrying the cause
text; for the breakpoint create/clear handlers the proxy continues running,
but for SwitchGoroutine/Next/Step/StepOut failures inside the step, resume
and switch handlers the handler panics afterwards, so there the failure is
fatal to the proxy. -/
theorem clientFailure_dispositions (c : Client) (st : ProxyState)
    (url : String) (line : Int) (bpId : String) (e : String) :
    (breakpointKey url line ∉ st.breakpoints →
      c.createBreakpointAtLine url (line + 1) (breakpointKey url line) = .error e →
      (setBreakpointAndRespond c st (mkSetBpCmd url line)).1 =
        [.clientCreateBreakpoint url (line + 1) (breakpointKey url line),
         .respond (.err .internalError e)] ∧
      (setBreakpointAndRespond c st (mkSetBpCmd url line)).2.isSome = true) ∧
    (c.clearBreakpointByName bpId = .error e →
      (removeBreakpointAndRespond c st { breakpointId := bpId }).1 =
        [.clientClearBreakpoint bpId, .respond (.err .internalError e)] ∧
      (removeBreakpointAndRespond c st { breakpointId := bpId }).2.isSome = true) ∧
    (c.switchGoroutine st.activeGoroutineID = .error e →
      stepOverAndRespond c st { destinationTargetID := "" } =
        ([.clientSwitchGoroutine st.activeGoroutineID,
          .respond (.err .internalError e), .panicked e], none) ∧
      stepIntoAndRespond c st { destinationTargetID := "" } =
        ([.clientSwitchGoroutine st.activeGoroutineID,
          .respond (.err .internalError e), .panicked e], none) ∧
      stepOutAndRespond c st { destinationTargetID := "" } =
        ([.clientSwitchGoroutine st.activeGoroutineID,
          .respond (.err .internalError e), .panicked e], none) ∧
      continueAndRespond c st { destinationTargetID := "" } =
        ([.clientSwitchGoroutine st.activeGoroutineID,
          .respond (.err .internalError e), .panicked e], none)) ∧
    (c.switchGoroutine st.activeGoroutineID = .ok () →
      (c.next = .error e →
        stepOverAndRespond c st { destinationTargetID := "" } =
          (.clientSwitchGoroutine st.activeGoroutineID :: sendResumeState st ++
            [.clientNext, .respond (.err .internalError e), .panicked e], none)) ∧
      (c.step = .error e →
        stepIntoAndRespond c st { destinationTargetID := "" } =
          (.clientSwitchGoroutine st.activeGoroutineID :: sendResumeState st ++
            [.clientStep, .respond (.err .internalError e), .panicked e], none)) ∧
      (c.stepOut = .error e →
        stepOutAndRespond c st { destinationTargetID := "" } =
          (.clientSwitchGoroutine st.activeGoroutineID :: sendResumeState st ++
            [.clientStepOut, .respond (.err .internalError e), .panicked e], none))) := by
  refine ⟨?_, ?_, ?_, ?_⟩
  · intro hnew he
    have h1 := setBreakpoint_valid_unfold c st url line
    rw [if_neg hnew, he] at h1
    rw [h1]
    exact ⟨rfl, rfl⟩
  · intro he
    simp [removeBreakpointAndRespond, he]
  · intro he
    refine ⟨?_, ?_, ?_, ?_⟩ <;>
      simp [stepOverAndRespond, stepIntoAndRespond, stepOutAndRespond, continueAndRespond,
        parseDestination, he]
  · intro hsw
    refine ⟨?_, ?_, ?_⟩ <;> intro he <;>
      simp [stepOverAndRespond, stepIntoAndRespond, stepOutAndRespond,
        parseDestination, hsw, he]

/-- C5: an EvaluateOnCallFrame whose EvalVariable call fails is answered with
a success response carrying ExceptionDetails (id 1, the error text, line and
column -1) and no Result; on success the response carries the Runtime
collaborator's RemoteObject as Result. -/
theorem evaluate_failure_becomes_data (c : Client) (mk : Variable → RemoteObject)
    (st : ProxyState) (cmd : EvaluateOnCallFrameCommand) (gid frameId : Int)
    (hgid : parseDestination cmd.destinationTargetID st.activeGoroutineID = some gid)
    (hframe : atoi cmd.callFrameId = some frameId) :
    (∀ e, c.evalVariable gid frameId cmd.expression = .error e →
      evaluateOnGoroutineAndRespond c mk st cmd =
        ([.clientEvalVariable gid frameId cmd.expression,
          .respond (.okEvaluate
            { result := none
              exceptionDetails := some
                { exceptionId := 1, text := e, lineNumber := -1, columnNumber := -1 } })],
         some st)) ∧
    (∀ v, c.evalVariable gid frameId cmd.expression = .ok v →
      evaluateOnGoroutineAndRespond c mk st cmd =
        ([.clientEvalVariable gid frameId cmd.expression,
          .respond (.okEvaluate { result := some (mk v), exceptionDetails := none })],
         some st)) := by
  constructor
  · intro e he
    simp [evaluateOnGoroutineAndRespond, hgid, hframe, he]
  · intro v hv
    simp [evaluateOnGoroutineAndRespond, hgid, hframe, hv]

/-! ## Target display title (C9) -/

def routineRun : Goroutine := { id := 7, userCurrentLoc := { file := "", line := 0, function := some { name := "main.run" } } }

def routineOther : Goroutine := { id := 7, userCurrentLoc := { file := "", line := 0, function := some { name := "main.other" } } }

/-- C9 counterexample: two routines with different top-of-stack function
short names get the identical AttachedToTarget title, the constant "tt" —
the title is not derived from the short name. -/
theorem attach_title_not_derived :
    shortFnName routineRun ≠ shortFnName routineOther ∧
    (attachTargetInfo routineRun).title = (attachTargetInfo routineOther).title ∧
    (attachTargetInfo routineRun).title = "tt" := by
  decide

/-- C9 amended: the AttachedToTarget event's Title field is the constant
"tt"; it is the Url field that is derived from the routine's current
top-of-stack function short name, as the decimal RoutineId, a colon, and
(when a function is present) a space followed by the last dot-segment of
the function name. -/
theorem attach_title_and_url (fileList : List String) (routine : Goroutine) :
    (attachTargetInfo routine).title = "tt" ∧
    (attachTargetInfo routine).url = toString routine.id ++ ":" ++ shortFnName routine ∧
    (attachEvents fileList routine).head? =
      some (.attachedToTarget
        { targetInfo := attachTargetInfo routine, waitingForDebugger := false }) := by
  exact ⟨rfl, rfl, rfl⟩

/-! ## Routine-sync invariant (C10) -/

theorem pickActiveGoroutine_mem (a : Int) (l : List Int) (h : l ≠ []) :
    pickActiveGoroutine a l ∈ l := by
  unfold pickActiveGoroutine
  by_cases hmem : a ∈ l
  · rw [if_pos hmem]; exact hmem
  · rw [if_neg hmem]
    cases l with
    | nil => exact absurd rfl h
    | cons t rest => simp

/-- C10: after a completed syncGoroutines pass, if ActiveTargets is
non-empty then ActiveRoutineId is one of its keys; if the sync leaves
ActiveTargets empty, ActiveRoutineId keeps its previous (dangling) value. -/
theorem syncGoroutines_active_invariant (c : Client) (st : ProxyState)
    (routines : List Goroutine) (steps : List Step) (st' : ProxyState)
    (hc : c.listGoroutines = .ok routines)
    (h : syncGoroutines c st = (steps, some st')) :
    (st'.activeTargets ≠ [] → st'.activeGoroutineID ∈ st'.activeTargets) ∧
    (st'.activeTargets = [] → st'.activeGoroutineID = st.activeGoroutineID) := by
  simp only [syncGoroutines, hc] at h
  rw [Prod.mk.injEq] at h
  obtain ⟨-, h2⟩ := h
  rw [Option.some.injEq] at h2
  subst h2
  refine ⟨fun hne => pickActiveGoroutine_mem _ _ hne, fun hempty => ?_⟩
  show pickActiveGoroutine st.activeGoroutineID _ = st.activeGoroutineID
  have hempty' : (destroyLoop (routines.map fun r => r.id)
      (attachLoop st.fileList routines st.activeTargets).2).2 = [] := hempty
  rw [hempty']
  rfl

/-! ## Pause-pipeline step order (C7) -/

def routinePlain : Goroutine :=
  { id := 1, userCurrentLoc := { file := "", line := 0, function := none } }

def cNotPaused : Client :=
  { getState := .ok none
    listGoroutines := .ok [routinePlain]
    stacktrace := fun _ => .error "not asked"
    switchGoroutine := fun _ => .ok ()
    next := .ok ()
    step := .ok ()
    stepOut := .ok ()
    continueResult := some none
    createBreakpointAtLine := fun _ _ _ => .ok ()
    clearBreakpointByName := fun _ => .ok ()
    evalVariable := fun _ _ _ => .error "not asked" }

/-- C7 counterexample: with the debugger reporting not-paused (nil state)
and a fresh routine to surface, the pause pipeline emits the
AttachedToTarget of the routine sync (index 2) strictly before the
not-paused invariant panic (index 3) — the check does not precede the sync. -/
theorem sendPauseState_sync_precedes_check :
    (sendPauseState cNotPaused st0).1.get? 2 =
      some (.emit (.attachedToTarget
        { targetInfo := attachTargetInfo routinePlain, waitingForDebugger := false })) ∧
    (sendPauseState cNotPaused st0).1.get? 3 =
      some (.panicked "Called sendPauseState() but not paused.") := by
  decide

/-- C7 amended: the pipeline queries the state first and panics immediately
on a query error, before any sync; but when the query succeeds with a nil
(not-paused) state, the routine sync runs first and the not-paused panic is
emitted only after the sync's steps. -/
theorem sendPauseState_order (c : Client) (st : ProxyState) :
    (∀ e, c.getState = .error e →
      sendPauseState c st = ([.clientGetState, .panicked e], none)) ∧
    (c.getState = .ok none → ∀ st1, (syncGoroutines c st).2 = some st1 →
      sendPauseState c st =
        (.clientGetState :: (syncGoroutines c st).1 ++
          [.panicked "Called sendPauseState() but not paused."], none)) := by
  constructor
  · intro e he
    simp [sendPauseState, he]
  · intro hok st1 hsync
    simp [sendPauseState, hok, hsync]

/-! ## Pause-snapshot emission order (C8) and frame translation (C1) -/

def isDefaultPaused (s : Step) : Prop := ∃ ev, s = .emit (.paused ev)

def isTargetPaused (s : Step) : Prop := ∃ tid ev, s = .emit (.pausedOnTarget tid ev)

theorem get_append_lt {α : Type} (X Y : List α) (p q : α → Prop)
    (hX : ∀ s ∈ X, ¬ q s) (hY : ∀ s ∈ Y, ¬ p s)
    {i j : Nat} {a b : α} (hi : (X ++ Y).get? i = some a) (hp : p a)
    (hj : (X ++ Y).get? j = some b) (hq : q b) : i < j := by
  have hiX : i < X.length := by
    by_contra hge
    push_neg at hge
    rw [List.get?_append_right hge] at hi
    exact hY a (List.get?_mem hi) hp
  have hjX : X.length ≤ j := by
    by_contra hlt
    push_neg at hlt
    rw [List.get?_append hlt] at hj
    exact hX b (List.get?_mem hj) hq
  omega

theorem attachLoop_steps (fl : List String) (rs : List Goroutine) (ts : List Int) :
    ∀ s ∈ (attachLoop fl rs ts).1, ¬ isDefaultPaused s ∧ ¬ isTargetPaused s := by
  induction rs generalizing ts with
  | nil => intro s hs; simp [attachLoop] at hs
  | cons r rest ih =>
    intro s hs
    simp only [attachLoop] at hs
    split at hs
    · exact ih ts s hs
    · simp only [List.mem_append, List.mem_map] at hs
      rcases hs with ⟨e, he, rfl⟩ | hs
      · simp only [attachEvents, List.mem_cons, List.mem_map] at he
        constructor
        · rintro ⟨ev, hev⟩
          rcases he with rfl | ⟨f, _, rfl⟩ <;> simp at hev
        · rintro ⟨tid, ev, hev⟩
          rcases he with rfl | ⟨f, _, rfl⟩ <;> simp at hev
      · exact ih _ s hs

theorem destroyLoop_steps (found : List Int) (ts : List Int) :
    ∀ s ∈ (destroyLoop found ts).1, ¬ isDefaultPaused s ∧ ¬ isTargetPaused s := by
  induction ts with
  | nil => intro s hs; simp [destroyLoop] at hs
  | cons id rest ih =>
    intro s hs
    simp only [destroyLoop] at hs
    split at hs
    · exact ih s hs
    · simp only [List.mem_cons] at hs
      rcases hs with rfl | hs
      · constructor
        · rintro ⟨ev, hev⟩; simp at hev
        · rintro ⟨tid, ev, hev⟩; simp at hev
      · exact ih s hs

theorem step_not_emit_not_paused (s : Step) (h : ∀ ev : Event, s ≠ .emit ev) :
    ¬ isDefaultPaused s ∧ ¬ isTargetPaused s := by
  constructor
  · rintro ⟨ev, rfl⟩
    exact h _ rfl
  · rintro ⟨tid, ev, rfl⟩
    exact h _ rfl

theorem syncGoroutines_steps (c : Client) (st : ProxyState) :
    ∀ s ∈ (syncGoroutines c st).1, ¬ isDefaultPaused s ∧ ¬ isTargetPaused s := by
  intro s hs
  cases hc : c.listGoroutines with
  | error e =>
    simp only [syncGoroutines, hc, List.mem_cons, List.not_mem_nil, or_false] at hs
    rcases hs with rfl | rfl <;>
      exact step_not_emit_not_paused _ (fun ev h => Step.noConfusion h)
  | ok rs =>
    simp only [syncGoroutines, hc, List.cons_append, List.mem_cons, List.mem_append] at hs
    rcases hs with rfl | hs | hs
    · exact step_not_emit_not_paused _ (fun ev h => Step.noConfusion h)
    · exact attachLoop_steps _ _ _ s hs
    · exact destroyLoop_steps _ _ s hs

theorem collectStacks_steps (c : Client) (a : Int) (ids : List Int)
    (act : Option (List Stackframe)) (ts : List (Int × List Stackframe)) :
    ∀ s ∈ (collectStacks c a ids act ts).1, ¬ isDefaultPaused s ∧ ¬ isTargetPaused s := by
  induction ids generalizing act ts with
  | nil => intro s hs; simp [collectStacks] at hs
  | cons id rest ih =>
    intro s hs
    cases hst : c.stacktrace id with
    | error e =>
      simp only [collectStacks, hst, List.mem_cons, List.not_mem_nil, or_false] at hs
      rcases hs with rfl | rfl <;>
        exact step_not_emit_not_paused _ (fun ev h => Step.noConfusion h)
    | ok stks =>
      simp only [collectStacks, hst] at hs
      split at hs <;>
      · simp only [List.mem_cons] at hs
        rcases hs with rfl | hs
        · exact step_not_emit_not_paused _ (fun ev h => Step.noConfusion h)
        · exact ih _ _ s hs

theorem collectStacks_spec (c : Client) (a : Int) (ids : List Int) :
    ∀ (act : Option (List Stackframe)) (ts : List (Int × List Stackframe))
      (act2 : Option (List Stackframe)) (ts2 : List (Int × List Stackframe)),
      (collectStacks c a ids act ts).2 = some (act2, ts2) →
      (act2 = act ∨ ∃ id stks, c.stacktrace id = .ok stks ∧ act2 = some stks) ∧
      (∀ p ∈ ts2, p ∈ ts ∨ c.stacktrace p.1 = .ok p.2) := by
  induction ids with
  | nil =>
    intro act ts act2 ts2 h
    simp only [collectStacks, Option.some.injEq, Prod.mk.injEq] at h
    obtain ⟨rfl, rfl⟩ := h
    exact ⟨Or.inl rfl, fun p hp => Or.inl hp⟩
  | cons id rest ih =>
    intro act ts act2 ts2 h
    cases hst : c.stacktrace id with
    | error e => simp [collectStacks, hst] at h
    | ok stks =>
      simp only [collectStacks, hst] at h
      split at h
      · obtain ⟨ha, hts⟩ := ih (some stks) ts act2 ts2 h
        refine ⟨?_, hts⟩
        rcases ha with rfl | ⟨i2, s2, hi2, rfl⟩
        · exact Or.inr ⟨id, stks, hst, rfl⟩
        · exact Or.inr ⟨i2, s2, hi2, rfl⟩
      · obtain ⟨ha, hts⟩ := ih act (ts ++ [(id, stks)]) act2 ts2 h
        refine ⟨ha, fun p hp => ?_⟩
        rcases hts p hp with hp2 | hok
        · rcases List.mem_append.mp hp2 with hp3 | hp4
          · exact Or.inl hp3
          · simp only [List.mem_singleton] at hp4
            exact Or.inr (by rw [hp4]; exact hst)
        · exact Or.inr hok

/-- Shape of the pause-snapshot trace: either it contains no Paused
emission at all, or it is a prefix free of Paused emissions followed by
the default-agent Paused steps and then the per-target Paused steps,
whose stacks were returned by the stacktrace calls. -/
theorem sendPauseState_shape (c : Client) (st : ProxyState) :
    (∀ s ∈ (sendPauseState c st).1, ¬ isDefaultPaused s ∧ ¬ isTargetPaused s) ∨
    (∃ (pre : List Step) (st1 : ProxyState) (act : Option (List Stackframe))
        (ts2 : List (Int × List Stackframe)),
      (sendPauseState c st).1 = pre ++ defaultPausedSteps act ++ targetPausedSteps ts2 ∧
      (∀ s ∈ pre, ¬ isDefaultPaused s ∧ ¬ isTargetPaused s) ∧
      (collectStacks c st1.activeGoroutineID st1.activeTargets none []).2 =
        some (act, ts2)) := by
  cases hgs : c.getState with
  | error e =>
    left
    intro s hs
    simp only [sendPauseState, hgs, List.mem_cons, List.not_mem_nil, or_false] at hs
    rcases hs with rfl | rfl <;>
      exact step_not_emit_not_paused _ (fun ev h => Step.noConfusion h)
  | ok state =>
    cases hsy : (syncGoroutines c st).2 with
    | none =>
      left
      intro s hs
      simp only [sendPauseState, hgs, hsy, List.mem_cons] at hs
      rcases hs with rfl | hs
      · exact step_not_emit_not_paused _ (fun ev h => Step.noConfusion h)
      · exact syncGoroutines_steps c st s hs
    | some st1 =>
      cases state with
      | none =>
        left
        intro s hs
        simp only [sendPauseState, hgs, hsy, List.cons_append, List.mem_cons, List.mem_append,
          List.not_mem_nil, or_false, List.mem_singleton] at hs
        rcases hs with rfl | hs | rfl
        · exact step_not_emit_not_paused _ (fun ev h => Step.noConfusion h)
        · exact syncGoroutines_steps c st s hs
        · exact step_not_emit_not_paused _ (fun ev h => Step.noConfusion h)
      | some dstate =>
        cases hcol : (collectStacks c st1.activeGoroutineID st1.activeTargets none []).2 with
        | none =>
          left
          intro s hs
          simp only [sendPauseState, hgs, hsy, hcol, List.cons_append, List.mem_cons,
            List.mem_append] at hs
          rcases hs with rfl | hs | hs
          · exact step_not_emit_not_paused _ (fun ev h => Step.noConfusion h)
          · exact syncGoroutines_steps c st s hs
          · exact collectStacks_steps c _ _ _ _ s hs
        | some pair =>
          obtain ⟨act, ts2⟩ := pair
          right
          refine ⟨Step.clientGetState ::
              ((syncGoroutines c st).1 ++
                (collectStacks c st1.activeGoroutineID st1.activeTargets none []).1),
            st1, act, ts2, ?_, ?_, hcol⟩
          · simp only [sendPauseState, hgs, hsy, hcol, List.cons_append, List.append_assoc]
          · intro s hs
            simp only [List.mem_cons, List.mem_append] at hs
            rcases hs with rfl | hs | hs
            · exact step_not_emit_not_paused _ (fun ev h => Step.noConfusion h)
            · exact syncGoroutines_steps c st s hs
            · exact collectStacks_steps c _ _ _ _ s hs

/-- C8: in the stream emitted by a pause snapshot, any default-agent Paused
occurs strictly before every per-target Paused. -/
theorem paused_active_before_targets (c : Client) (st : ProxyState)
    (i j : Nat) (evd : PausedEvent) (tid : String) (evt : PausedEvent)
    (hi : (sendPauseState c st).1.get? i = some (.emit (.paused evd)))
    (hj : (sendPauseState c st).1.get? j = some (.emit (.pausedOnTarget tid evt))) :
    i < j := by
  rcases sendPauseState_shape c st with hnone | ⟨pre, st1, act, ts2, heq, hpre, hcol⟩
  · exact absurd ⟨evd, rfl⟩ (hnone _ (List.get?_mem hi)).1
  · rw [heq] at hi hj
    refine get_append_lt (pre ++ defaultPausedSteps act) (targetPausedSteps ts2)
      isDefaultPaused isTargetPaused ?_ ?_ hi ⟨evd, rfl⟩ hj ⟨tid, evt, rfl⟩
    · intro s hs
      rcases List.mem_append.mp hs with hs | hs
      · exact (hpre s hs).2
      · cases act with
        | none => simp [defaultPausedSteps] at hs
        | some stks =>
          simp only [defaultPausedSteps, List.mem_singleton] at hs
          subst hs
          rintro ⟨tid2, ev2, h⟩
          simp at h
    · intro s hs
      simp only [targetPausedSteps, List.mem_map] at hs
      obtain ⟨p, hp, rfl⟩ := hs
      rintro ⟨ev2, h⟩
      simp at h

theorem buildPausedEvent_get (frames : List Stackframe) (i : Nat) (cf : CallFrame)
    (h : (buildPausedEvent frames).callFrames.get? i = some cf) :
    ∃ frame, frames.get? i = some frame ∧
      cf.location.lineNumber = frame.location.line - 1 := by
  simp only [buildPausedEvent, List.get?_map, List.enum_get?] at h
  cases hf : frames.get? i with
  | none => rw [hf] at h; simp at h
  | some frame =>
    rw [hf] at h
    simp only [Option.map_some'] at h
    injection h with h2
    subst h2
    exact ⟨frame, rfl, rfl⟩

/-- C1: the line-number round trip.  (a) Every backend CreateBreakpointAtLine
call made by the SetBreakpointByUrl handler is at the command's
`lineNumber + 1`.  (b) Every frame of every Paused event a pause snapshot
emits — on the default agent or on a target — carries
`LineNumber = backend line - 1`. -/
theorem line_number_round_trip :
    (∀ (c : Client) (st : ProxyState) (cmd : SetBreakpointByUrlCommand)
        (f : String) (l : Int) (n : String),
      Step.clientCreateBreakpoint f l n ∈ (setBreakpointAndRespond c st cmd).1 →
      cmd.url = some f ∧ l = cmd.lineNumber + 1) ∧
    (∀ (c : Client) (st : ProxyState) (ev : PausedEvent),
      (Step.emit (.paused ev) ∈ (sendPauseState c st).1 ∨
        ∃ tid, Step.emit (.pausedOnTarget tid ev) ∈ (sendPauseState c st).1) →
      ∀ (i : Nat) (cf : CallFrame), ev.callFrames.get? i = some cf →
        ∃ (id : Int) (frames : List Stackframe) (frame : Stackframe),
          c.stacktrace id = .ok frames ∧ frames.get? i = some frame ∧
          cf.location.lineNumber = frame.location.line - 1) := by
  constructor
  · intro c st cmd f l n h
    obtain ⟨h1, h2, -⟩ := setBreakpointByUrl_line_plus_one c st cmd f l n h
    exact ⟨h1, h2⟩
  · intro c st ev hmem i cf hcf
    have hsrc : ∃ (id : Int) (frames : List Stackframe),
        c.stacktrace id = .ok frames ∧ ev = buildPausedEvent frames := by
      rcases sendPauseState_shape c st with hnone | ⟨pre, st1, act, ts2, heq, hpre, hcol⟩
      · rcases hmem with hm | ⟨tid, hm⟩
        · exact absurd ⟨ev, rfl⟩ (hnone _ hm).1
        · exact absurd ⟨tid, ev, rfl⟩ (hnone _ hm).2
      · obtain ⟨hact, hts⟩ :=
          collectStacks_spec c st1.activeGoroutineID st1.activeTargets none [] act ts2 hcol
        rcases hmem with hm | ⟨tid, hm⟩
        · rw [heq] at hm
          rcases List.mem_append.mp hm with hm | hm
          · rcases List.mem_append.mp hm with hm | hm
            · exact absurd ⟨ev, rfl⟩ (hpre _ hm).1
            · cases act with
              | none => simp [defaultPausedSteps] at hm
              | some stks =>
                simp only [defaultPausedSteps, List.mem_singleton] at hm
                have hev : ev = buildPausedEvent stks := by
                  injection hm with hm2
                  injection hm2 with hm3
                rcases hact with hact | ⟨id2, s2, hid2, hsome⟩
                · exact Option.noConfusion hact
                · obtain rfl : stks = s2 := by injection hsome
                  exact ⟨id2, stks, hid2, hev⟩
          · simp only [targetPausedSteps, List.mem_map] at hm
            obtain ⟨p, hp2, hbad⟩ := hm
            simp at hbad
        · rw [heq] at hm
          rcases List.mem_append.mp hm with hm | hm
          · rcases List.mem_append.mp hm with hm | hm
            · exact absurd ⟨tid, ev, rfl⟩ (hpre _ hm).2
            · cases act with
              | none => simp [defaultPausedSteps] at hm
              | some stks =>
                simp only [defaultPausedSteps, List.mem_singleton] at hm
                simp at hm
          · simp only [targetPausedSteps, List.mem_map] at hm
            obtain ⟨p, hp2, hbad⟩ := hm
            have hev : ev = buildPausedEvent p.2 := by
              injection hbad with hb2
              injection hb2 with hb3 hb4
              exact hb4.symm
            rcases hts p hp2 with hin | hok
            · simp at hin
            · exact ⟨p.1, p.2, hok, hev⟩
    obtain ⟨id, frames, hid, rfl⟩ := hsrc
    obtain ⟨frame, hf, hline⟩ := buildPausedEvent_get frames i cf hcf
    exact ⟨id, frames, frame, hid, hf, hline⟩

/-! ## Concrete inputs for witnesses -/

def routineTwo : Goroutine :=
  { id := 2, userCurrentLoc := { file := "", line := 0, function := none } }

def routineThree : Goroutine :=
  { id := 3, userCurrentLoc := { file := "", line := 0, function := none } }

def frameSample : Stackframe :=
  { location := { file := "/a/b.src", line := 5, function := some { name := "main.run" } } }

def cHappy : Client :=
  { getState := .ok (some { selectedGoroutine := none })
    listGoroutines := .ok [routinePlain, routineTwo]
    stacktrace := fun _ => .ok [frameSample]
    switchGoroutine := fun _ => .ok ()
    next := .ok ()
    step := .ok ()
    stepOut := .ok ()
    continueResult := some none
    createBreakpointAtLine := fun _ _ _ => .ok ()
    clearBreakpointByName := fun _ => .ok ()
    evalVariable := fun _ _ _ => .error "undefined symbol" }

def cCreateFail : Client :=
  { cHappy with createBreakpointAtLine := fun _ _ _ => .error "create failed" }

def cClearFail : Client :=
  { cHappy with clearBreakpointByName := fun _ => .error "clear failed" }

def cRoutine3 : Client := { cHappy with listGoroutines := .ok [routineThree] }

def st9 : ProxyState :=
  { activeTargets := [], fileList := [], activeGoroutineID := 9, breakpoints := [] }

/-! ## Witnesses -/

/-- C1 witness: the fixture run makes the backend call at line 11 for
frontend line 10, and the emitted frame for backend line 5 carries 4. -/
theorem line_number_round_trip_witness :
    ((mkSetBpCmd "/a/b.src" 10).url = some "/a/b.src" ∧
      (11 : Int) = (mkSetBpCmd "/a/b.src" 10).lineNumber + 1) ∧
    (∃ (id : Int) (frames : List Stackframe) (frame : Stackframe),
      cHappy.stacktrace id = .ok frames ∧ frames.get? 0 = some frame ∧
      (buildCallFrame 0 frameSample).location.lineNumber = frame.location.line - 1) :=
  ⟨line_number_round_trip.1 cHappy st0 (mkSetBpCmd "/a/b.src" 10) "/a/b.src" 11
      (breakpointKey "/a/b.src" 10) (List.mem_cons_self _ _),
   line_number_round_trip.2 cHappy st0 (buildPausedEvent [frameSample])
      (Or.inl (by decide)) 0 (buildCallFrame 0 frameSample) (by decide)⟩

/-- C2 witness: first set of (/a/b.src, 10) on an empty registry makes the
backend call and answers with the fingerprint. -/
theorem setBreakpointByUrl_idempotent_witness :
    (setBreakpointAndRespond cHappy st0 (mkSetBpCmd "/a/b.src" 10)).1 =
      [.clientCreateBreakpoint "/a/b.src" (10 + 1) (breakpointKey "/a/b.src" 10),
       .respond (.okSetBreakpoint
         { breakpointId := breakpointKey "/a/b.src" 10
           locations := [buildLocation "/a/b.src" 10] })] :=
  (setBreakpointByUrl_idempotent cHappy st0 "/a/b.src" 10 (by decide) rfl).1

/-- C3 witness at (/a/b.src, 10). -/
theorem setBreakpointByUrl_fingerprint_witness :
    SetBreakpointByUrlReturn.breakpointId
        { breakpointId := breakpointKey "/a/b.src" 10
          locations := [buildLocation "/a/b.src" 10] } =
      "a" ++ hexEncodeBytes (sha1 (strBytes ("/a/b.src" ++ ":" ++ toString (10 : Int)))) ∧
    isBpIdForm (SetBreakpointByUrlReturn.breakpointId
        { breakpointId := breakpointKey "/a/b.src" 10
          locations := [buildLocation "/a/b.src" 10] }) :=
  setBreakpointByUrl_fingerprint cHappy st0 "/a/b.src" 10
    { breakpointId := breakpointKey "/a/b.src" 10
      locations := [buildLocation "/a/b.src" 10] }
    (List.mem_cons_of_mem _ (List.mem_cons_self _ _))

/-- C4 (amended) witness: a failing switch inside StepOver responds then
panics; a failing clear in RemoveBreakpoint responds and the proxy lives. -/
theorem clientFailure_dispositions_witness :
    stepOverAndRespond cSwitchFail st0 { destinationTargetID := "" } =
      ([.clientSwitchGoroutine st0.activeGoroutineID,
        .respond (.err .internalError "switch failed"), .panicked "switch failed"], none) ∧
    (removeBreakpointAndRespond cClearFail st0 { breakpointId := "b" }).1 =
      [.clientClearBreakpoint "b", .respond (.err .internalError "clear failed")] ∧
    (removeBreakpointAndRespond cClearFail st0 { breakpointId := "b" }).2.isSome = true :=
  ⟨((clientFailure_dispositions cSwitchFail st0 "u" 0 "b" "switch failed").2.2.1 rfl).1,
   ((clientFailure_dispositions cClearFail st0 "u" 0 "b" "clear failed").2.1 rfl).1,
   ((clientFailure_dispositions cClearFail st0 "u" 0 "b" "clear failed").2.1 rfl).2⟩

/-- C5 witness: scenario 5 of the spec — the evaluator error
"undefined symbol" becomes ExceptionDetails data in a success response. -/
theorem evaluate_failure_becomes_data_witness :
    evaluateOnGoroutineAndRespond cHappy (fun _ => { type := "object" }) st0
        { callFrameId := "0", expression := "oops" } =
      ([.clientEvalVariable 1 0 "oops",
        .respond (.okEvaluate
          { result := none
            exceptionDetails := some
              { exceptionId := 1, text := "undefined symbol"
                lineNumber := -1, columnNumber := -1 } })],
       some st0) :=
  (evaluate_failure_becomes_data cHappy (fun _ => { type := "object" }) st0
      { callFrameId := "0", expression := "oops" } 1 0 rfl rfl).1 "undefined symbol" rfl

/-- C6 witness: a failing create at (/a/b.src, 10) leaves the registry
exactly as before. -/
theorem setBreakpointByUrl_atomic_witness :
    setBreakpointAndRespond cCreateFail st0 (mkSetBpCmd "/a/b.src" 10) =
      ([.clientCreateBreakpoint "/a/b.src" (10 + 1) (breakpointKey "/a/b.src" 10),
        .respond (.err .internalError "create failed")], some st0) ∧
    breakpointKey "/a/b.src" 10 ∉ st0.breakpoints :=
  (setBreakpointByUrl_atomic cCreateFail st0 "/a/b.src" 10 (by decide)).1
    "create failed" rfl

/-- C7 (amended) witness: with a nil state, the trace is the state query,
the sync steps, then the not-paused panic. -/
theorem sendPauseState_order_witness :
    sendPauseState cNotPaused st0 =
      (.clientGetState :: (syncGoroutines cNotPaused st0).1 ++
        [.panicked "Called sendPauseState() but not paused."], none) :=
  (sendPauseState_order cNotPaused st0).2 rfl
    { activeTargets := [1], fileList := [], activeGoroutineID := 1, breakpoints := [] }
    (by decide)

/-- C8 witness: in the fixture snapshot the default-agent Paused sits at
index 6 and the per-target Paused at index 7. -/
theorem paused_active_before_targets_witness :
    (sendPauseState cHappy st0).1.get? 6 =
      some (.emit (.paused (buildPausedEvent [frameSample]))) ∧
    (sendPauseState cHappy st0).1.get? 7 =
      some (.emit (.pausedOnTarget "2" (buildPausedEvent [frameSample]))) ∧
    6 < 7 :=
  ⟨by decide, by decide,
   paused_active_before_targets cHappy st0 6 7 (buildPausedEvent [frameSample]) "2"
     (buildPausedEvent [frameSample]) (by decide) (by decide)⟩

/-- C10 witness: syncing routine 3 over a stale active id 9 lands on an
active id that is a key of the target map. -/
theorem syncGoroutines_active_invariant_witness :
    (ProxyState.mk [3] [] 3 []).activeGoroutineID ∈
      (ProxyState.mk [3] [] 3 []).activeTargets :=
  (syncGoroutines_active_invariant cRoutine3 st9 [routineThree]
      [.clientListGoroutines,
       .emit (.attachedToTarget
         { targetInfo := attachTargetInfo routineThree, waitingForDebugger := false })]
      (ProxyState.mk [3] [] 3 []) rfl (by decide)).1 (by decide)

end DebuggerProxy
